import Mathlib

/-!
Verification of the financial forecasting and scenario-planning engine
(`financial-automation/core/financial_planning.py`).

Modelling conventions used throughout this development:

* Python floats and `Decimal` values are modelled as real numbers (`ℝ`);
  floating-point rounding is abstracted away.  Division follows Lean's
  convention `x / 0 = 0` where numpy floats would produce `inf`/`nan`;
  every place where this matters is noted at the corresponding theorem.
* `datetime` timestamps are modelled as natural numbers (days); adding
  `timedelta(days = d)` becomes `+ d`.  Calendar-month bucketing in the
  aggregator is modelled as 30-day buckets; no verified property depends
  on the bucket boundaries.
* Nondeterministic inputs of the source (`uuid4`, `datetime.now()`, the
  `random.uniform` draws of the scenario adjuster) are passed as explicit
  parameters (`fid`, `now`, `rand`).
* Python exceptions (`raise ValueError`) are modelled with `Except String`;
  a helper that can only fail transitively returns `Except` as well, and
  exception propagation is the `Except` monad's bind.
-/

noncomputable section

/-- Enumeration `ForecastType` of the source. -/
inductive ForecastType where
  | revenue
  | expenses
  | cash_flow
  | growth
  | churn
  deriving DecidableEq

/-- String value of a `ForecastType`, as in the Python enum. -/
def ForecastType.val : ForecastType → String
  | .revenue => "revenue"
  | .expenses => "expenses"
  | .cash_flow => "cash_flow"
  | .growth => "growth"
  | .churn => "churn"

/-- Enumeration `ScenarioType` of the source. -/
inductive ScenarioType where
  | optimistic
  | realistic
  | pessimistic
  deriving DecidableEq

/-- String value of a `ScenarioType`. -/
def ScenarioType.val : ScenarioType → String
  | .optimistic => "optimistic"
  | .realistic => "realistic"
  | .pessimistic => "pessimistic"

/-- Enumeration `PlanningHorizon` of the source. -/
inductive PlanningHorizon where
  | monthly
  | quarterly
  | yearly
  | multi_year
  deriving DecidableEq

/-- String value of a `PlanningHorizon`. -/
def PlanningHorizon.val : PlanningHorizon → String
  | .monthly => "monthly"
  | .quarterly => "quarterly"
  | .yearly => "yearly"
  | .multi_year => "multi_year"

/-- Dataclass `FinancialMetric`.  The `value` is a `Decimal` in the source,
modelled as `ℝ`; the unused optional `metadata` map is omitted (no embedded
code path reads it). -/
structure FinancialMetric where
  metric_id : String
  name : String
  value : ℝ
  period : ℕ
  category : String

/-- Keyword table `relevance_map` of `_is_relevant_metric`.  The Python dict
has no entry for `churn`, and `.get(forecast_type, [])` turns the missing
entry into the empty list. -/
def relevance_map : ForecastType → List String
  | .revenue => ["revenue", "sales", "subscription", "mrr", "arr"]
  | .expenses => ["expenses", "costs", "spend", "payroll", "marketing"]
  | .cash_flow => ["cash_flow", "receipts", "payments", "balance"]
  | .growth => ["growth", "customers", "users", "acquisition", "retention"]
  | .churn => []

/-- Substring containment on character lists: Python's `needle in hay`. -/
def listContainsSub (needle : List Char) : List Char → Bool
  | [] => needle.isEmpty
  | c :: rest => needle.isPrefixOf (c :: rest) || listContainsSub needle rest

/-- Substring containment on strings: Python's `needle in hay`. -/
def strContainsSub (hay needle : String) : Bool :=
  listContainsSub needle.toList hay.toList

/-- Python's `str.lower`, written over the character list (semantically
`String.toLower`, but stated this way so that it evaluates on concrete
inputs). -/
def strToLower (s : String) : String := ⟨s.data.map Char.toLower⟩

/-- Method `_is_relevant_metric`: case-insensitive substring match of any of
the category's keywords against the metric's name or category. -/
def is_relevant_metric (m : FinancialMetric) (ft : ForecastType) : Bool :=
  (relevance_map ft).any fun term =>
    strContainsSub (strToLower m.name) term || strContainsSub (strToLower m.category) term

/-- One row of the DataFrame built by `_prepare_historical_data`. -/
structure DataRow where
  period : ℕ
  value : ℝ
  category : String
  name : String

/-- Method `_prepare_historical_data`: filter the historical metrics by
relevance, raise `ValueError` when none remain, otherwise sort rows by
period ascending. -/
def prepare_historical_data (hist : List FinancialMetric) (ft : ForecastType) :
    Except String (List DataRow) :=
  let relevant := hist.filter fun m => is_relevant_metric m ft
  if relevant.isEmpty then
    .error ("No historical data available for " ++ ft.val)
  else
    .ok ((relevant.map fun m => DataRow.mk m.period m.value m.category m.name).mergeSort
      fun a b => a.period ≤ b.period)

/-- One row of the monthly aggregate produced by `_aggregate_monthly_data`. -/
structure MonthRow where
  period : ℕ
  value : ℝ

/-- Month bucket of a timestamp.  The source buckets by calendar month via
`dt.to_period`; with timestamps modelled as day counts this becomes a 30-day
bucket.  No verified property depends on the bucket boundaries. -/
def monthOf (p : ℕ) : ℕ := p / 30

/-- Method `_aggregate_monthly_data`: group rows by month, sum the values of
each group, order the groups by month ascending (pandas `groupby` sorts its
keys), and stamp each group with the start of its month. -/
def aggregate_monthly_data (df : List DataRow) : List MonthRow :=
  let months := ((df.map fun r => monthOf r.period).dedup).mergeSort fun a b => a ≤ b
  months.map fun m =>
    MonthRow.mk (m * 30) ((df.filter fun r => monthOf r.period = m).map fun r => r.value).sum

/-- One prediction record as produced by the model fitters (keys `period`,
`predicted_value`, `model`). -/
structure ForecastPoint where
  period : ℕ
  predicted_value : ℝ
  model : String

/-- Period of the last row (`historical_data['period'].iloc[-1]`); the `0`
default is unreachable because every caller guards against empty input. -/
def lastPeriod (l : List MonthRow) : ℕ := ((l.getLast?).map fun r => r.period).getD 0

/-- Value of the last row (`iloc[-1]`); default unreachable as in
`lastPeriod`. -/
def lastValue (l : List MonthRow) : ℝ := ((l.getLast?).map fun r => r.value).getD 0

/-- Value of the first row (`iloc[0]`); default unreachable as in
`lastPeriod`. -/
def firstValue (l : List MonthRow) : ℝ := ((l.head?).map fun r => r.value).getD 0

/-- Growth rate computed by `_simple_trend_forecast`:
`(last / first) ** (1 / N) - 1` for at least two rows (note: the division by
`firstValue` is not guarded against a zero first value), `0.05` otherwise. -/
def simple_trend_growth_rate (data : List MonthRow) : ℝ :=
  if 2 ≤ data.length then
    (lastValue data / firstValue data) ^ (1 / (data.length : ℝ)) - 1
  else
    0.05

/-- Method `_simple_trend_forecast`: raise on empty input, otherwise compound
the last observed value by `(1 + growth_rate) ** (i + 1)`.  The output is not
floored at zero. -/
def simple_trend_forecast (data : List MonthRow) (forecast_months : ℕ) :
    Except String (List ForecastPoint) :=
  if data.isEmpty then .error "No historical data available"
  else
    let growth_rate := simple_trend_growth_rate data
    let last_value := lastValue data
    .ok ((List.range forecast_months).map fun i =>
      ForecastPoint.mk (lastPeriod data + 30 * (i + 1))
        (last_value * (1 + growth_rate) ^ (i + 1)) "simple_trend")

/-- Method `_linear_regression_forecast`: with fewer than 2 rows fall back to
the simple trend; otherwise ordinary least squares of `value` against the
index `0..N-1` and extrapolation at `N + i`, floored at zero. -/
def linear_regression_forecast (data : List MonthRow) (forecast_months : ℕ) :
    Except String (List ForecastPoint) :=
  if data.length < 2 then simple_trend_forecast data forecast_months
  else
    let n := data.length
    let xs : List ℝ := (List.range n).map fun i => (i : ℝ)
    let ys : List ℝ := data.map fun r => r.value
    let x_mean := xs.sum / (n : ℝ)
    let y_mean := ys.sum / (n : ℝ)
    let slope := (List.zipWith (fun x y => (x - x_mean) * (y - y_mean)) xs ys).sum /
      (xs.map fun x => (x - x_mean) ^ 2).sum
    let intercept := y_mean - slope * x_mean
    .ok ((List.range forecast_months).map fun i =>
      ForecastPoint.mk (lastPeriod data + 30 * (i + 1))
        (max 0 (slope * ((n : ℝ) + (i : ℝ)) + intercept)) "linear_regression")

/-- Least-squares degree-2 polynomial fit of `ys` against `x = 0..N-1`,
returning the coefficients `(a, b, c)` of `a*x^2 + b*x + c`.  The source uses
`np.polyfit`; for `N ≥ 3` distinct sample points the least-squares solution
is the unique solution of the normal equations, solved here by Cramer's
rule over the moment sums. -/
def polyfit2 (ys : List ℝ) : ℝ × ℝ × ℝ :=
  let n := ys.length
  let xs : List ℝ := (List.range n).map fun i => (i : ℝ)
  let s0 : ℝ := (n : ℝ)
  let s1 := xs.sum
  let s2 := (xs.map fun x => x ^ 2).sum
  let s3 := (xs.map fun x => x ^ 3).sum
  let s4 := (xs.map fun x => x ^ 4).sum
  let t0 := ys.sum
  let t1 := (List.zipWith (fun x y => x * y) xs ys).sum
  let t2 := (List.zipWith (fun x y => x ^ 2 * y) xs ys).sum
  let det := s4 * (s2 * s0 - s1 * s1) - s3 * (s3 * s0 - s1 * s2) + s2 * (s3 * s1 - s2 * s2)
  let a := (t2 * (s2 * s0 - s1 * s1) - s3 * (t1 * s0 - s1 * t0) + s2 * (t1 * s1 - s2 * t0)) / det
  let b := (s4 * (t1 * s0 - s1 * t0) - t2 * (s3 * s0 - s1 * s2) + s2 * (s3 * t0 - t1 * s2)) / det
  let c := (s4 * (s2 * t0 - t1 * s1) - s3 * (s3 * t0 - t1 * s2) + t2 * (s3 * s1 - s2 * s2)) / det
  (a, b, c)

/-- Method `_polynomial_regression_forecast`: with fewer than 3 rows fall
back to linear regression; otherwise fit a degree-2 polynomial (the source's
`min(2, N - 1)` equals 2 on this branch) and extrapolate at `N + i`, floored
at zero. -/
def polynomial_regression_forecast (data : List MonthRow) (forecast_months : ℕ) :
    Except String (List ForecastPoint) :=
  if data.length < 3 then linear_regression_forecast data forecast_months
  else
    let n := data.length
    let (a, b, c) := polyfit2 (data.map fun r => r.value)
    .ok ((List.range forecast_months).map fun i =>
      ForecastPoint.mk (lastPeriod data + 30 * (i + 1))
        (max 0 (a * ((n : ℝ) + (i : ℝ)) ^ 2 + b * ((n : ℝ) + (i : ℝ)) + c))
        "polynomial_regression")

/-- Smoothing recursion of `_exponential_smoothing_forecast`:
`smoothed.append(alpha * values[i] + (1 - alpha) * smoothed[i-1])` with
`alpha = 0.3`, continuing from the previously smoothed value. -/
def smoothFrom : ℝ → List ℝ → List ℝ
  | _, [] => []
  | prev, v :: rest =>
    let s := 0.3 * v + (1 - 0.3) * prev
    s :: smoothFrom s rest

/-- Smoothed series of `_exponential_smoothing_forecast`: starts with
`values[0]` and then applies the smoothing recursion. -/
def smoothedList : List ℝ → List ℝ
  | [] => []
  | v :: rest => v :: smoothFrom v rest

/-- Trend of `_exponential_smoothing_forecast`: the difference between the
last two smoothed values, `0` when fewer than two exist. -/
def exp_smooth_trend (smoothed : List ℝ) : ℝ :=
  if 2 ≤ smoothed.length then
    (smoothed.getLast?).getD 0 - (smoothed.get? (smoothed.length - 2)).getD 0
  else 0

/-- Method `_exponential_smoothing_forecast`: with fewer than 2 rows fall
back to the simple trend; otherwise extrapolate
`last_smoothed + trend * (i + 1)`, floored at zero. -/
def exponential_smoothing_forecast (data : List MonthRow) (forecast_months : ℕ) :
    Except String (List ForecastPoint) :=
  if data.length < 2 then simple_trend_forecast data forecast_months
  else
    let smoothed := smoothedList (data.map fun r => r.value)
    let trend := exp_smooth_trend smoothed
    let last_value := (smoothed.getLast?).getD 0
    .ok ((List.range forecast_months).map fun i =>
      ForecastPoint.mk (lastPeriod data + 30 * (i + 1))
        (max 0 (last_value + trend * ((i : ℝ) + 1))) "exponential_smoothing")

/-- Method `_arima_forecast`: an alias for exponential smoothing in the
source ("Simplified ARIMA"). -/
def arima_forecast (data : List MonthRow) (forecast_months : ℕ) :
    Except String (List ForecastPoint) :=
  exponential_smoothing_forecast data forecast_months

/-- Adjustment factor triple of `_get_scenario_adjustments`. -/
structure AdjustmentFactors where
  growth_factor : ℝ
  volatility : ℝ
  market_factor : ℝ

/-- Method `_get_scenario_adjustments`: the fixed 3-scenario by 4-category
table; any combination missing from the table (every `churn` entry) yields
the default `{1.0, 0.1, 1.0}`. -/
def get_scenario_adjustments (sc : ScenarioType) (ft : ForecastType) : AdjustmentFactors :=
  match sc, ft with
  | .optimistic, .revenue => ⟨1.25, 0.15, 1.1⟩
  | .optimistic, .expenses => ⟨0.95, 0.10, 0.9⟩
  | .optimistic, .cash_flow => ⟨1.20, 0.12, 1.05⟩
  | .optimistic, .growth => ⟨1.30, 0.20, 1.15⟩
  | .realistic, .revenue => ⟨1.0, 0.10, 1.0⟩
  | .realistic, .expenses => ⟨1.0, 0.08, 1.0⟩
  | .realistic, .cash_flow => ⟨1.0, 0.10, 1.0⟩
  | .realistic, .growth => ⟨1.0, 0.15, 1.0⟩
  | .pessimistic, .revenue => ⟨0.8, 0.20, 0.9⟩
  | .pessimistic, .expenses => ⟨1.1, 0.15, 1.1⟩
  | .pessimistic, .cash_flow => ⟨0.75, 0.18, 0.85⟩
  | .pessimistic, .growth => ⟨0.7, 0.25, 0.8⟩
  | _, .churn => ⟨1.0, 0.1, 1.0⟩

/-- One prediction record after `_apply_scenario_adjustments` added the
`scenario` and `adjustments` keys. -/
structure AdjustedPoint where
  period : ℕ
  predicted_value : ℝ
  model : String
  scenario : String
  adjustments : AdjustmentFactors

/-- Method `_apply_scenario_adjustments`: multiply each raw value by the
growth and market factors and by `1 + random.uniform(-vol, vol)`, floored at
zero.  The `i`-th uniform draw is passed in as `rand i` (the model leaves
its range unconstrained; no verified property depends on it). -/
def apply_scenario_adjustments (preds : List ForecastPoint) (sc : ScenarioType)
    (ft : ForecastType) (rand : ℕ → ℝ) : List AdjustedPoint :=
  let fs := get_scenario_adjustments sc ft
  preds.mapIdx fun i p =>
    let adjusted := p.predicted_value * fs.growth_factor * fs.market_factor
    let random_factor := 1 + rand i
    AdjustedPoint.mk p.period (max 0 (adjusted * random_factor)) p.model sc.val fs

/-- Field `model_type` of `_load_model_configs`; the configuration table has
no `churn` entry and `_generate_predictions` defaults the model type to
`linear_regression` for it. -/
def model_type : ForecastType → String
  | .revenue => "linear_regression"
  | .expenses => "polynomial_regression"
  | .cash_flow => "arima"
  | .growth => "exponential_smoothing"
  | .churn => "linear_regression"

/-- Field `confidence_level` of `_load_model_configs`; `churn` has no entry
and `_calculate_confidence_interval` defaults it to `0.95`. -/
def confidence_level : ForecastType → ℝ
  | .revenue => 0.95
  | .expenses => 0.90
  | .cash_flow => 0.95
  | .growth => 0.85
  | .churn => 0.95

/-- Method `_calculate_confidence_interval`: `(base - 0.15, base + 0.05)`
from the static per-category confidence level; the predictions argument is
unused, as in the source. -/
def calculate_confidence_interval (_predictions : List AdjustedPoint)
    (ft : ForecastType) : ℝ × ℝ :=
  (confidence_level ft - 0.15, confidence_level ft + 0.05)

/-- Method `_generate_predictions`: aggregate to monthly data, dispatch on
the configured model type, then apply the scenario adjustments. -/
def generate_predictions (df : List DataRow) (ft : ForecastType) (sc : ScenarioType)
    (forecast_months : ℕ) (rand : ℕ → ℝ) : Except String (List AdjustedPoint) := do
  let monthly := aggregate_monthly_data df
  let base ←
    if model_type ft = "linear_regression" then
      linear_regression_forecast monthly forecast_months
    else if model_type ft = "polynomial_regression" then
      polynomial_regression_forecast monthly forecast_months
    else if model_type ft = "arima" then
      arima_forecast monthly forecast_months
    else if model_type ft = "exponential_smoothing" then
      exponential_smoothing_forecast monthly forecast_months
    else
      simple_trend_forecast monthly forecast_months
  pure (apply_scenario_adjustments base sc ft rand)

/-- Method `_calculate_model_accuracy`: `0.7` for fewer than 4 rows;
otherwise backtest a linear regression fitted on the leading 75%
(`int(len * 0.75)` rows, modelled by `3 * n / 4` in ℕ) against the trailing
25%, score the mean absolute percentage error, and return
`min(max(0, 100 - mape) / 100, 0.95)`.  The source reads only the `period`
and `value` columns of the training rows, hence the projection to
`MonthRow`.  With an `actual` value of 0 the source's numpy division yields
`inf`/`nan` while this model's division yields 0; the verified bounds hold
in the model either way. -/
def calculate_model_accuracy (df : List DataRow) (_ft : ForecastType) :
    Except String ℝ :=
  if df.length < 4 then pure 0.7
  else
    let split_point := 3 * df.length / 4
    let train := df.take split_point
    let test := df.drop split_point
    do
      let preds ← linear_regression_forecast
        (train.map fun r => MonthRow.mk r.period r.value) test.length
      let actual := test.map fun r => r.value
      let predicted := preds.map fun p => p.predicted_value
      if actual.length ≠ predicted.length then pure 0.7
      else
        let mape := ((List.zipWith (fun a p => |(a - p) / a|) actual predicted).sum /
          (actual.length : ℝ)) * 100
        let accuracy := max 0 (100 - mape) / 100
        pure (min accuracy 0.95)

/-- Method `_get_scenario_assumptions`: the static per-scenario assumption
maps. -/
def get_scenario_assumptions (sc : ScenarioType) : List (String × String) :=
  match sc with
  | .optimistic =>
    [("market_growth", "Strong market growth expected"),
     ("competition", "Limited competitive pressure"),
     ("economic_conditions", "Favorable economic environment"),
     ("product_adoption", "Rapid product adoption"),
     ("operational_efficiency", "High operational efficiency gains")]
  | .realistic =>
    [("market_growth", "Moderate market growth"),
     ("competition", "Normal competitive environment"),
     ("economic_conditions", "Stable economic conditions"),
     ("product_adoption", "Steady product adoption"),
     ("operational_efficiency", "Gradual efficiency improvements")]
  | .pessimistic =>
    [("market_growth", "Slow or declining market growth"),
     ("competition", "Intense competitive pressure"),
     ("economic_conditions", "Challenging economic environment"),
     ("product_adoption", "Slow product adoption"),
     ("operational_efficiency", "Operational challenges expected")]

/-- Dataclass `Forecast`.  The prediction records of a base forecast are
`AdjustedPoint`s; the synthetic combined forecast of `_combine_forecasts`
holds `CombinedPoint`s instead, hence the type parameter (the Python class
stores either shape of dict in the same field). -/
structure Forecast (α : Type) where
  forecast_id : String
  forecast_type : ForecastType
  scenario : ScenarioType
  period_start : ℕ
  period_end : ℕ
  predictions : List α
  confidence_interval : ℝ × ℝ
  model_accuracy : ℝ
  assumptions : List (String × String)
  created_at : ℕ

/-- One record of a combined forecast of `_combine_forecasts`. -/
structure CombinedPoint where
  period : ℕ
  revenue : ℝ
  expenses : ℝ
  cash_flow : ℝ
  net_income : ℝ

/-- Risk factor record of `_identify_risk_factors` (dict keys `type`,
`severity`, `description`, `mitigation`; `type` is renamed `rtype` here). -/
structure RiskFactor where
  rtype : String
  severity : String
  description : String
  mitigation : String

/-- The `scenarios` dict of `create_financial_plan` / `FinancialPlan`:
one combined forecast per scenario key, each possibly absent (the consumers
use `.get`). -/
structure ScenarioMap where
  optimistic : Option (Forecast CombinedPoint)
  realistic : Option (Forecast CombinedPoint)
  pessimistic : Option (Forecast CombinedPoint)

/-- Dataclass `FinancialPlan`.  The dict-valued fields are modelled as
association lists in insertion order. -/
structure FinancialPlan where
  plan_id : String
  name : String
  planning_horizon : PlanningHorizon
  scenarios : ScenarioMap
  budget_allocations : List (String × ℝ)
  kpi_targets : List (String × ℝ)
  risk_factors : List RiskFactor
  created_at : ℕ
  updated_at : ℕ

/-- Mutable state of `FinancialPlanningEngine`. -/
structure EngineState where
  historical_data : List FinancialMetric
  forecasts : List (Forecast AdjustedPoint)
  financial_plans : List FinancialPlan

/-- Body of `generate_forecast`'s `try` block: prepare the historical data,
generate and adjust the predictions, compute the confidence interval and
accuracy, and build the `Forecast`.  Any exception raised on the way
propagates.  The fresh uuid and the wall clock are passed in as `fid` and
`now`. -/
def generate_forecast_attempt (s : EngineState) (ft : ForecastType) (sc : ScenarioType)
    (forecast_months : ℕ) (rand : ℕ → ℝ) (now : ℕ) (fid : String) :
    Except String (Forecast AdjustedPoint) := do
  let df ← prepare_historical_data s.historical_data ft
  let predictions ← generate_predictions df ft sc forecast_months rand
  let ci := calculate_confidence_interval predictions ft
  let acc ← calculate_model_accuracy df ft
  pure (Forecast.mk fid ft sc now (now + forecast_months * 30) predictions ci acc
    (get_scenario_assumptions sc) now)

/-- Outcome of `generate_forecast`: on success the new forecast is appended
to the engine's forecast list; on an exception the state is returned as it
was. -/
def generate_forecast (s : EngineState) (ft : ForecastType) (sc : ScenarioType)
    (forecast_months : ℕ) (rand : ℕ → ℝ) (now : ℕ) (fid : String) :
    Except String (Forecast AdjustedPoint) × EngineState :=
  match generate_forecast_attempt s ft sc forecast_months rand now fid with
  | .ok f => (.ok f, { s with forecasts := s.forecasts ++ [f] })
  | .error e => (.error e, s)

/-- The `scenario_forecasts` dict passed to `_combine_forecasts` by
`create_financial_plan`: keys `revenue`, `expenses`, `cash_flow`. -/
structure ScenarioForecasts where
  revenue : Forecast AdjustedPoint
  expenses : Forecast AdjustedPoint
  cash_flow : Forecast AdjustedPoint

/-- Value contributed by a constituent forecast at month index `i` in
`_combine_forecasts`: the record starts at 0 and is overwritten only when
`i < len(forecast.predictions)`. -/
def predictionValueAt (f : Forecast AdjustedPoint) (i : ℕ) : ℝ :=
  ((f.predictions.get? i).map fun p => p.predicted_value).getD 0

/-- Method `_combine_forecasts`: one record per month of the horizon holding
the three per-category values (0 where a constituent forecast underruns the
horizon) and `net_income = revenue - expenses`, wrapped into a `Forecast`
with category `cash_flow`, confidence interval `(0.8, 0.95)` and accuracy
`0.85`. -/
def combine_forecasts (sf : ScenarioForecasts) (sc : ScenarioType)
    (forecast_months : ℕ) (now : ℕ) (fid : String) : Forecast CombinedPoint :=
  Forecast.mk fid .cash_flow sc now (now + forecast_months * 30)
    ((List.range forecast_months).map fun i =>
      CombinedPoint.mk (now + 30 * (i + 1))
        (predictionValueAt sf.revenue i) (predictionValueAt sf.expenses i)
        (predictionValueAt sf.cash_flow i)
        (predictionValueAt sf.revenue i - predictionValueAt sf.expenses i))
    (0.8, 0.95) 0.85 (get_scenario_assumptions sc) now

/-- Method `_create_budget_allocations`: empty map when the realistic
scenario is absent; otherwise fixed percentages of the realistic scenario's
average monthly revenue.  The source's `Decimal(str(total / len))` and the
`Decimal` percentage products are exact in this real-valued model. -/
def create_budget_allocations (scenarios : ScenarioMap) : List (String × ℝ) :=
  match scenarios.realistic with
  | none => []
  | some f =>
    let total_revenue := (f.predictions.map fun p => p.revenue).sum
    let avg_monthly_revenue := total_revenue / (f.predictions.length : ℝ)
    [("marketing", avg_monthly_revenue * 0.15),
     ("sales", avg_monthly_revenue * 0.10),
     ("engineering", avg_monthly_revenue * 0.25),
     ("operations", avg_monthly_revenue * 0.08),
     ("admin", avg_monthly_revenue * 0.05),
     ("contingency", avg_monthly_revenue * 0.10)]

/-- Count of months with negative cash flow in `_identify_risk_factors`
(`sum(1 for p in predictions if p['cash_flow'] < 0)`). -/
def negative_cash_flow_months (preds : List CombinedPoint) : ℕ :=
  (preds.map fun p => if p.cash_flow < 0 then 1 else 0).sum

/-- Method `_identify_risk_factors`: a conditional `cash_flow_risk` entry
when the pessimistic combined forecast has more than 3 negative-cash-flow
months, followed by the three static entries. -/
def identify_risk_factors (scenarios : ScenarioMap) : List RiskFactor :=
  (match scenarios.pessimistic with
   | some f =>
     let n := negative_cash_flow_months f.predictions
     if 3 < n then
       [RiskFactor.mk "cash_flow_risk" "high"
         ("Potential negative cash flow for " ++ toString n ++
           " months in pessimistic scenario")
         "Ensure adequate cash reserves and credit facilities"]
     else []
   | none => []) ++
  [RiskFactor.mk "revenue_concentration" "medium"
     "High dependency on limited revenue streams"
     "Diversify revenue sources and customer base",
   RiskFactor.mk "market_risk" "medium"
     "Exposure to market volatility and economic downturns"
     "Maintain flexible cost structure and contingency planning",
   RiskFactor.mk "operational_risk" "low"
     "Dependency on key personnel and systems"
     "Implement succession planning and system redundancy"]

/-- Shape of the serialized (`to_dict`) values.  `decimalStr v` models the
Python `str(Decimal-value)` conversions: the rendered digits are not
modelled, only the fact that the field is serialized as a decimal string
rather than as a JSON number (`num`).  Date `isoformat()` strings are
modelled as `str` of the day count. -/
inductive Json where
  | str : String → Json
  | decimalStr : ℝ → Json
  | num : ℝ → Json
  | arr : List Json → Json
  | obj : List (String × Json) → Json

/-- Lookup of a key in a serialized object. -/
def Json.objLookup : Json → String → Option Json
  | .obj kvs, k => kvs.lookup k
  | _, _ => none

/-- Whether a serialized value is a string (either kind), as opposed to a
JSON number. -/
def Json.isStringLike : Json → Bool
  | .str _ => true
  | .decimalStr _ => true
  | _ => false

/-- Serialization of one adjusted prediction record inside
`Forecast.to_dict`: `asdict` copies the prediction dicts unchanged, so the
`predicted_value` float stays a number. -/
def adjustedPointToJson (p : AdjustedPoint) : Json :=
  .obj [("period", .str (toString p.period)),
        ("predicted_value", .num p.predicted_value),
        ("model", .str p.model),
        ("scenario", .str p.scenario),
        ("adjustments", .obj
          [("growth_factor", .num p.adjustments.growth_factor),
           ("volatility", .num p.adjustments.volatility),
           ("market_factor", .num p.adjustments.market_factor)])]

/-- Serialization of one combined prediction record inside
`Forecast.to_dict`: the four monetary floats stay numbers. -/
def combinedPointToJson (c : CombinedPoint) : Json :=
  .obj [("period", .str (toString c.period)),
        ("revenue", .num c.revenue),
        ("expenses", .num c.expenses),
        ("cash_flow", .num c.cash_flow),
        ("net_income", .num c.net_income)]

/-- Method `Forecast.to_dict`: enums and dates become strings; the
predictions list, the confidence-interval floats and the accuracy float are
kept as produced by `asdict`. -/
def forecastToDict {α : Type} (serPoint : α → Json) (f : Forecast α) : Json :=
  .obj [("forecast_id", .str f.forecast_id),
        ("forecast_type", .str f.forecast_type.val),
        ("scenario", .str f.scenario.val),
        ("period_start", .str (toString f.period_start)),
        ("period_end", .str (toString f.period_end)),
        ("predictions", .arr (f.predictions.map serPoint)),
        ("confidence_interval", .arr
          [.num f.confidence_interval.1, .num f.confidence_interval.2]),
        ("model_accuracy", .num f.model_accuracy),
        ("assumptions", .obj (f.assumptions.map fun kv => (kv.1, .str kv.2))),
        ("created_at", .str (toString f.created_at))]

/-- Serialization of one risk-factor record inside `FinancialPlan.to_dict`
(`asdict` turns the dataclass list entries into string-valued dicts). -/
def riskFactorToJson (r : RiskFactor) : Json :=
  .obj [("type", .str r.rtype),
        ("severity", .str r.severity),
        ("description", .str r.description),
        ("mitigation", .str r.mitigation)]

/-- Re-serialization of the `scenarios` dict inside `FinancialPlan.to_dict`
(`{k: v.to_dict() for k, v in data['scenarios'].items()}`): `asdict(self)`
has already converted each nested `Forecast` dataclass into a plain dict,
which has no `to_dict` method, so the comprehension raises `AttributeError`
at its first entry.  Only an empty scenarios map serializes (to the empty
object). -/
def scenarios_to_dict (m : ScenarioMap) : Except String Json :=
  match m.optimistic, m.realistic, m.pessimistic with
  | none, none, none => .ok (.obj [])
  | _, _, _ => .error "AttributeError: 'dict' object has no attribute 'to_dict'"

/-- Method `FinancialPlan.to_dict`: the scenarios re-serialization raises
`AttributeError` for any plan with a present scenario (see
`scenarios_to_dict`), and the budget-allocation / KPI-target
stringifications on the following lines are only reached when it succeeds;
then the planning horizon and dates become strings and every
budget-allocation and KPI-target `Decimal` becomes a decimal string
(`str(v)`). -/
def financialPlanToDict (p : FinancialPlan) : Except String Json := do
  let scenarios ← scenarios_to_dict p.scenarios
  pure (.obj [("plan_id", .str p.plan_id),
        ("name", .str p.name),
        ("planning_horizon", .str p.planning_horizon.val),
        ("scenarios", scenarios),
        ("budget_allocations", .obj
          (p.budget_allocations.map fun kv => (kv.1, .decimalStr kv.2))),
        ("kpi_targets", .obj
          (p.kpi_targets.map fun kv => (kv.1, .decimalStr kv.2))),
        ("risk_factors", .arr (p.risk_factors.map riskFactorToJson)),
        ("created_at", .str (toString p.created_at)),
        ("updated_at", .str (toString p.updated_at))])

/-- Helper: on non-empty input the simple-trend fitter succeeds with exactly
the requested number of points, all tagged `simple_trend`. -/
theorem simple_trend_spec (data : List MonthRow) (m : ℕ) (hne : data ≠ []) :
    ∃ l, simple_trend_forecast data m = .ok l ∧ l.length = m ∧
      ∀ p ∈ l, p.model = "simple_trend" := by
  have hE : data.isEmpty = false := by simpa [List.isEmpty_iff] using hne
  unfold simple_trend_forecast
  rw [hE]
  refine ⟨_, rfl, by simp, ?_⟩
  intro p hp
  simp only [List.mem_map] at hp
  obtain ⟨i, _, rfl⟩ := hp
  rfl

/-- Helper: on non-empty input the linear-regression fitter succeeds with
exactly the requested number of points, every point not produced by the
simple-trend fallback being non-negative. -/
theorem linear_regression_spec (data : List MonthRow) (m : ℕ) (hne : data ≠ []) :
    ∃ l, linear_regression_forecast data m = .ok l ∧ l.length = m ∧
      ∀ p ∈ l, p.model ≠ "simple_trend" → 0 ≤ p.predicted_value := by
  by_cases hlt : data.length < 2
  · obtain ⟨l, hok, hlen, hmod⟩ := simple_trend_spec data m hne
    refine ⟨l, ?_, hlen, fun p hp hne2 => absurd (hmod p hp) hne2⟩
    unfold linear_regression_forecast
    rw [if_pos hlt]
    exact hok
  · unfold linear_regression_forecast
    rw [if_neg hlt]
    refine ⟨_, rfl, by simp, ?_⟩
    intro p hp _
    simp only [List.mem_map] at hp
    obtain ⟨i, _, rfl⟩ := hp
    exact le_max_left 0 _

/-- Helper: on non-empty input the polynomial-regression fitter succeeds
with exactly the requested number of points, every point not produced by the
simple-trend fallback being non-negative. -/
theorem polynomial_regression_spec (data : List MonthRow) (m : ℕ) (hne : data ≠ []) :
    ∃ l, polynomial_regression_forecast data m = .ok l ∧ l.length = m ∧
      ∀ p ∈ l, p.model ≠ "simple_trend" → 0 ≤ p.predicted_value := by
  by_cases hlt : data.length < 3
  · obtain ⟨l, hok, hlen, hval⟩ := linear_regression_spec data m hne
    refine ⟨l, ?_, hlen, hval⟩
    unfold polynomial_regression_forecast
    rw [if_pos hlt]
    exact hok
  · unfold polynomial_regression_forecast
    rw [if_neg hlt]
    refine ⟨_, rfl, by simp, ?_⟩
    intro p hp _
    simp only [List.mem_map] at hp
    obtain ⟨i, _, rfl⟩ := hp
    exact le_max_left 0 _

/-- Helper: on non-empty input the exponential-smoothing fitter succeeds
with exactly the requested number of points, every point not produced by the
simple-trend fallback being non-negative. -/
theorem exponential_smoothing_spec (data : List MonthRow) (m : ℕ) (hne : data ≠ []) :
    ∃ l, exponential_smoothing_forecast data m = .ok l ∧ l.length = m ∧
      ∀ p ∈ l, p.model ≠ "simple_trend" → 0 ≤ p.predicted_value := by
  by_cases hlt : data.length < 2
  · obtain ⟨l, hok, hlen, hmod⟩ := simple_trend_spec data m hne
    refine ⟨l, ?_, hlen, fun p hp hne2 => absurd (hmod p hp) hne2⟩
    unfold exponential_smoothing_forecast
    rw [if_pos hlt]
    exact hok
  · unfold exponential_smoothing_forecast
    rw [if_neg hlt]
    refine ⟨_, rfl, by simp, ?_⟩
    intro p hp _
    simp only [List.mem_map] at hp
    obtain ⟨i, _, rfl⟩ := hp
    exact le_max_left 0 _

/-- C1: for every non-empty monthly series and every horizon, each of the
four fitters returns exactly `horizon` points; every point of the linear,
polynomial and exponential-smoothing fitters that was not produced by the
simple-trend fallback has a non-negative value; and the simple-trend
fitter's output is not floored to zero (witnessed by a series whose forecast
is negative). -/
theorem fitters_horizon_and_nonneg :
    (∀ (data : List MonthRow) (m : ℕ), data ≠ [] →
      (∃ l, linear_regression_forecast data m = .ok l ∧ l.length = m ∧
        ∀ p ∈ l, p.model ≠ "simple_trend" → 0 ≤ p.predicted_value) ∧
      (∃ l, polynomial_regression_forecast data m = .ok l ∧ l.length = m ∧
        ∀ p ∈ l, p.model ≠ "simple_trend" → 0 ≤ p.predicted_value) ∧
      (∃ l, exponential_smoothing_forecast data m = .ok l ∧ l.length = m ∧
        ∀ p ∈ l, p.model ≠ "simple_trend" → 0 ≤ p.predicted_value) ∧
      (∃ l, simple_trend_forecast data m = .ok l ∧ l.length = m)) ∧
    (∃ l, simple_trend_forecast [MonthRow.mk 0 (-5)] 1 = .ok l ∧
      ∃ p ∈ l, p.predicted_value < 0) := by
  constructor
  · intro data m hne
    refine ⟨linear_regression_spec data m hne, polynomial_regression_spec data m hne,
      exponential_smoothing_spec data m hne, ?_⟩
    obtain ⟨l, hok, hlen, _⟩ := simple_trend_spec data m hne
    exact ⟨l, hok, hlen⟩
  · refine ⟨[ForecastPoint.mk 30 ((-5) * (1 + 0.05) ^ 1) "simple_trend"], ?_, ?_⟩
    · simp [simple_trend_forecast, simple_trend_growth_rate, lastValue, lastPeriod,
        List.range_succ]
    · refine ⟨_, List.mem_singleton_self _, ?_⟩
      norm_num

/-- Witness for C1 at a concrete input. -/
theorem fitters_horizon_and_nonneg_witness :
    ∃ l, linear_regression_forecast [MonthRow.mk 0 1] 2 = .ok l ∧ l.length = 2 := by
  obtain ⟨⟨l, hok, hlen, _⟩, _, _, _⟩ :=
    fitters_horizon_and_nonneg.1 [MonthRow.mk 0 1] 2 (by simp)
  exact ⟨l, hok, hlen⟩

/-- C2: every combined forecast has one record per month of the horizon,
each record satisfies `net_income = revenue - expenses`, a constituent
forecast that does not cover a month index contributes 0 there, and the
wrapping `Forecast` has category `cash_flow`, confidence interval
`(0.80, 0.95)` and accuracy `0.85` regardless of the constituent
forecasts. -/
theorem combine_forecasts_spec (sf : ScenarioForecasts) (sc : ScenarioType)
    (m now : ℕ) (fid : String) :
    (combine_forecasts sf sc m now fid).predictions.length = m ∧
    (∀ p ∈ (combine_forecasts sf sc m now fid).predictions,
      p.net_income = p.revenue - p.expenses) ∧
    (∀ i, ∀ p, (combine_forecasts sf sc m now fid).predictions.get? i = some p →
      (sf.revenue.predictions.length ≤ i → p.revenue = 0) ∧
      (sf.expenses.predictions.length ≤ i → p.expenses = 0) ∧
      (sf.cash_flow.predictions.length ≤ i → p.cash_flow = 0)) ∧
    (combine_forecasts sf sc m now fid).forecast_type = .cash_flow ∧
    (combine_forecasts sf sc m now fid).confidence_interval = (0.8, 0.95) ∧
    (combine_forecasts sf sc m now fid).model_accuracy = 0.85 := by
  refine ⟨by simp [combine_forecasts], ?_, ?_, rfl, rfl, rfl⟩
  · intro p hp
    simp only [combine_forecasts, List.mem_map] at hp
    obtain ⟨i, _, rfl⟩ := hp
    rfl
  · intro i p hp
    simp only [combine_forecasts] at hp
    rw [List.get?_map] at hp
    by_cases hlt : i < m
    · rw [List.get?_range hlt, Option.map_some'] at hp
      have hfi := Option.some.inj hp
      subst hfi
      refine ⟨?_, ?_, ?_⟩ <;> intro hlen <;>
        simp [predictionValueAt, List.getElem?_eq_none hlen]
    · rw [List.get?_eq_none.mpr (by simpa using Nat.le_of_not_lt hlt)] at hp
      exact absurd hp (by simp)

/-- Concrete adjusted point used by witness theorems. -/
def wAdjusted (v : ℝ) : AdjustedPoint :=
  ⟨30, v, "linear_regression", "realistic", ⟨1, 0.1, 1⟩⟩

/-- Concrete base forecast used by witness theorems. -/
def wForecast (vals : List ℝ) : Forecast AdjustedPoint :=
  ⟨"f", .revenue, .realistic, 0, 60, vals.map wAdjusted, (0.8, 0.95), 0.7, [], 0⟩

/-- Witness for C2: combining over a 2-month horizon a revenue forecast with
a single point and an empty cash-flow forecast yields 2 records, and the
second month's revenue contribution is 0 with `net_income` still equal to
`revenue - expenses`. -/
theorem combine_forecasts_spec_witness :
    (combine_forecasts ⟨wForecast [7], wForecast [3], wForecast []⟩ .realistic 2 0
      "cid").predictions.length = 2 ∧
    ((combine_forecasts ⟨wForecast [7], wForecast [3], wForecast []⟩ .realistic 2 0
      "cid").predictions.get? 1).elim False
      (fun p => p.revenue = 0 ∧ p.net_income = p.revenue - p.expenses) := by
  have h := combine_forecasts_spec ⟨wForecast [7], wForecast [3], wForecast []⟩
    .realistic 2 0 "cid"
  refine ⟨h.1, ?_⟩
  cases hp : (combine_forecasts ⟨wForecast [7], wForecast [3], wForecast []⟩ .realistic 2 0
      "cid").predictions.get? 1 with
  | none =>
    have hlen := List.get?_eq_none.mp hp
    rw [h.1] at hlen
    omega
  | some p =>
    have hrev := (h.2.2.1 1 p hp).1 (by simp [wForecast])
    have hmem : p ∈ (combine_forecasts ⟨wForecast [7], wForecast [3], wForecast []⟩
        .realistic 2 0 "cid").predictions := List.get?_mem hp
    exact ⟨hrev, h.2.1 p hmem⟩

/-- C3: budget allocations are the fixed percentages 15/10/25/8/5/10 of the
realistic scenario's average monthly revenue, so an average of 1000 yields
exactly marketing=150, sales=100, engineering=250, operations=80, admin=50,
contingency=100 with sum 730; an absent realistic scenario yields the empty
allocation map. -/
theorem create_budget_allocations_spec (scenarios : ScenarioMap) :
    (scenarios.realistic = none → create_budget_allocations scenarios = []) ∧
    (∀ f, scenarios.realistic = some f →
      (f.predictions.map fun p => p.revenue).sum / (f.predictions.length : ℝ) = 1000 →
      create_budget_allocations scenarios =
        [("marketing", 150), ("sales", 100), ("engineering", 250),
         ("operations", 80), ("admin", 50), ("contingency", 100)] ∧
      ((create_budget_allocations scenarios).map fun kv => kv.2).sum = 730) := by
  constructor
  · intro h
    simp [create_budget_allocations, h]
  · intro f hf havg
    have hlist : create_budget_allocations scenarios =
        [("marketing", 1000 * 0.15), ("sales", 1000 * 0.10),
         ("engineering", 1000 * 0.25), ("operations", 1000 * 0.08),
         ("admin", 1000 * 0.05), ("contingency", 1000 * 0.10)] := by
      simp only [create_budget_allocations, hf, havg]
    constructor
    · rw [hlist]
      norm_num
    · rw [hlist]
      norm_num

/-- Concrete combined forecast with one month of revenue 1000, used by the
C3 witness. -/
def wCombined1000 : Forecast CombinedPoint :=
  ⟨"f", .cash_flow, .realistic, 0, 60, [⟨30, 1000, 400, 600, 600⟩], (0.8, 0.95),
    0.85, [], 0⟩

/-- Witness for C3 at a concrete scenario map whose realistic average
monthly revenue is 1000. -/
theorem create_budget_allocations_spec_witness :
    create_budget_allocations ⟨none, some wCombined1000, none⟩ =
      [("marketing", 150), ("sales", 100), ("engineering", 250),
       ("operations", 80), ("admin", 50), ("contingency", 100)] ∧
    ((create_budget_allocations ⟨none, some wCombined1000, none⟩).map
      fun kv => kv.2).sum = 730 :=
  (create_budget_allocations_spec ⟨none, some wCombined1000, none⟩).2 wCombined1000
    rfl (by norm_num [wCombined1000])

/-- C4: the risk-factor list contains a `cash_flow_risk` entry of severity
`high` exactly when the pessimistic combined forecast is present and has
strictly more than 3 months of negative cash flow, and the three static
entries (`revenue_concentration` medium, `market_risk` medium,
`operational_risk` low) are always present. -/
theorem identify_risk_factors_spec (scenarios : ScenarioMap) :
    ((∃ r ∈ identify_risk_factors scenarios,
        r.rtype = "cash_flow_risk" ∧ r.severity = "high") ↔
      (∃ f, scenarios.pessimistic = some f ∧
        3 < negative_cash_flow_months f.predictions)) ∧
    (∃ r ∈ identify_risk_factors scenarios,
      r.rtype = "revenue_concentration" ∧ r.severity = "medium") ∧
    (∃ r ∈ identify_risk_factors scenarios,
      r.rtype = "market_risk" ∧ r.severity = "medium") ∧
    (∃ r ∈ identify_risk_factors scenarios,
      r.rtype = "operational_risk" ∧ r.severity = "low") := by
  cases hps : scenarios.pessimistic with
  | none =>
    refine ⟨?_, ?_, ?_, ?_⟩ <;> simp [identify_risk_factors, hps]
  | some f =>
    by_cases h3 : 3 < negative_cash_flow_months f.predictions
    · refine ⟨?_, ?_, ?_, ?_⟩ <;> simp [identify_risk_factors, hps, h3]
    · refine ⟨?_, ?_, ?_, ?_⟩ <;> simp [identify_risk_factors, hps, h3]

/-- Concrete pessimistic combined forecast with four months of negative cash
flow, used by the C4 witness. -/
def wNegativeCashFlow : Forecast CombinedPoint :=
  ⟨"f", .cash_flow, .pessimistic, 0, 120,
    [⟨30, 0, 1, -1, -1⟩, ⟨60, 0, 1, -1, -1⟩, ⟨90, 0, 1, -1, -1⟩, ⟨120, 0, 1, -1, -1⟩],
    (0.8, 0.95), 0.85, [], 0⟩

/-- Witness for C4: with four negative-cash-flow months in the pessimistic
scenario, the high-severity `cash_flow_risk` entry is present. -/
theorem identify_risk_factors_spec_witness :
    ∃ r ∈ identify_risk_factors ⟨none, none, some wNegativeCashFlow⟩,
      r.rtype = "cash_flow_risk" ∧ r.severity = "high" :=
  (identify_risk_factors_spec ⟨none, none, some wNegativeCashFlow⟩).1.mpr
    ⟨wNegativeCashFlow, rfl, by
      simp only [wNegativeCashFlow, negative_cash_flow_months, List.map]
      split_ifs <;> norm_num at *⟩

/-- C5: the accuracy estimator returns exactly 0.7 for fewer than 4 rows;
for 4 or more rows it backtests a linear regression fitted on the leading
75% against the trailing 25% (whose predicted length always matches the
actual length, so the mismatch fallback to 0.7 is never taken) and returns
`min (max 0 (1 - mean |actual - predicted| / actual)) 0.95`; every returned
accuracy lies in `[0, 0.95]`. -/
theorem calculate_model_accuracy_spec (df : List DataRow) (ft : ForecastType) :
    (df.length < 4 → calculate_model_accuracy df ft = .ok 0.7) ∧
    (4 ≤ df.length →
      ∃ preds,
        linear_regression_forecast
          ((df.take (3 * df.length / 4)).map fun r => MonthRow.mk r.period r.value)
          (df.drop (3 * df.length / 4)).length = .ok preds ∧
        preds.length = (df.drop (3 * df.length / 4)).length ∧
        calculate_model_accuracy df ft = .ok (min (max 0 (1 -
          (List.zipWith (fun a p => |(a - p) / a|)
              ((df.drop (3 * df.length / 4)).map fun r => r.value)
              (preds.map fun p => p.predicted_value)).sum /
            ((df.drop (3 * df.length / 4)).length : ℝ))) 0.95)) ∧
    (∀ a, calculate_model_accuracy df ft = .ok a → 0 ≤ a ∧ a ≤ 0.95) := by
  have hbind : ∀ (e : Except String (List ForecastPoint))
      (x : List ForecastPoint) (f : List ForecastPoint → Except String ℝ),
      e = .ok x → e >>= f = f x := by
    intro e x f he
    rw [he]
    rfl
  have hlow : df.length < 4 → calculate_model_accuracy df ft = .ok 0.7 := by
    intro h
    unfold calculate_model_accuracy
    rw [if_pos h]
    rfl
  have hhigh : 4 ≤ df.length →
      ∃ preds,
        linear_regression_forecast
          ((df.take (3 * df.length / 4)).map fun r => MonthRow.mk r.period r.value)
          (df.drop (3 * df.length / 4)).length = .ok preds ∧
        preds.length = (df.drop (3 * df.length / 4)).length ∧
        calculate_model_accuracy df ft = .ok (min (max 0 (1 -
          (List.zipWith (fun a p => |(a - p) / a|)
              ((df.drop (3 * df.length / 4)).map fun r => r.value)
              (preds.map fun p => p.predicted_value)).sum /
            ((df.drop (3 * df.length / 4)).length : ℝ))) 0.95) := by
    intro h4
    have hKle : 3 * df.length / 4 ≤ df.length := by omega
    have hK3 : 3 ≤ 3 * df.length / 4 := by omega
    have htrainlen :
        ((df.take (3 * df.length / 4)).map fun r => MonthRow.mk r.period r.value).length =
          3 * df.length / 4 := by
      simp [List.length_take, Nat.min_eq_left hKle]
    have hne : ((df.take (3 * df.length / 4)).map fun r => MonthRow.mk r.period r.value) ≠ [] := by
      intro hcon
      have h0 := congrArg List.length hcon
      rw [htrainlen] at h0
      simp at h0
      omega
    obtain ⟨preds, hok, hlen, _⟩ :=
      linear_regression_spec _ ((df.drop (3 * df.length / 4)).length) hne
    refine ⟨preds, hok, hlen, ?_⟩
    simp only [calculate_model_accuracy]
    rw [if_neg (by omega)]
    rw [hbind _ preds _ hok]
    rw [if_neg (by simp [hlen])]
    refine congrArg Except.ok ?_
    simp only [List.length_map]
    rw [← max_div_div_right (by norm_num : (0 : ℝ) ≤ 100)]
    congr 1
    congr 1
    · norm_num
    · ring
  refine ⟨hlow, hhigh, ?_⟩
  intro a ha
  rcases lt_or_le df.length 4 with hlt | hge
  · rw [hlow hlt] at ha
    have : (0.7 : ℝ) = a := by
      injection ha
    rw [← this]
    norm_num
  · obtain ⟨preds, _, _, hacc⟩ := hhigh hge
    rw [hacc] at ha
    have hval : min (max 0 (1 -
        (List.zipWith (fun a p => |(a - p) / a|)
            ((df.drop (3 * df.length / 4)).map fun r => r.value)
            (preds.map fun p => p.predicted_value)).sum /
          ((df.drop (3 * df.length / 4)).length : ℝ))) 0.95 = a := by
      injection ha
    rw [← hval]
    constructor
    · exact le_min (le_max_left 0 _) (by norm_num)
    · exact min_le_right _ _

/-- Witness for C5 at a concrete input: the empty series has fewer than 4
rows and gets the default accuracy 0.7. -/
theorem calculate_model_accuracy_spec_witness :
    calculate_model_accuracy [] .revenue = .ok 0.7 :=
  (calculate_model_accuracy_spec [] .revenue).1 (by norm_num)

/-- Counterexample to C6: on the single-point series `[100]` the
exponential-smoothing fitter falls back to the simple-trend fitter, which
applies the default 5% compound growth, so the forecast is `105`, not the
flat extrapolation `100` that the claim asserts. -/
theorem exponential_smoothing_single_point_not_flat :
    exponential_smoothing_forecast [MonthRow.mk 0 100] 1 =
      .ok [ForecastPoint.mk 30 105 "simple_trend"] ∧
    (105 : ℝ) ≠ 100 := by
  constructor
  · simp [exponential_smoothing_forecast, simple_trend_forecast,
      simple_trend_growth_rate, lastValue, lastPeriod, List.range_succ]
    norm_num
  · norm_num

/-- C6 (amended): a single-point series makes the exponential-smoothing
fitter fall back to the simple-trend fitter (default 5% compound growth,
not flat); the fitter's flat extrapolation instead occurs on series of at
least 2 points whose trend (difference of the last two smoothed values) is
0 — e.g. any constant series — where every predicted value equals the last
smoothed value floored at zero. -/
theorem exponential_smoothing_flat_spec (data : List MonthRow) (m : ℕ)
    (h2 : 2 ≤ data.length)
    (h0 : exp_smooth_trend (smoothedList (data.map fun r => r.value)) = 0) :
    ∃ l, exponential_smoothing_forecast data m = .ok l ∧ l.length = m ∧
      ∀ p ∈ l, p.predicted_value =
        max 0 (((smoothedList (data.map fun r => r.value)).getLast?).getD 0) := by
  unfold exponential_smoothing_forecast
  rw [if_neg (by omega)]
  refine ⟨_, rfl, by simp, ?_⟩
  intro p hp
  simp only [List.mem_map] at hp
  obtain ⟨i, _, rfl⟩ := hp
  simp [h0]

/-- Witness for the amended C6 at a concrete constant series: the smoothed
trend is 0 and both forecast points equal the last smoothed value. -/
theorem exponential_smoothing_flat_spec_witness :
    2 ≤ ([MonthRow.mk 0 100, MonthRow.mk 30 100] : List MonthRow).length ∧
    exp_smooth_trend (smoothedList
      (([MonthRow.mk 0 100, MonthRow.mk 30 100] : List MonthRow).map fun r => r.value)) = 0 ∧
    ∃ l, exponential_smoothing_forecast [MonthRow.mk 0 100, MonthRow.mk 30 100] 2 = .ok l ∧
      l.length = 2 ∧ ∀ p ∈ l, p.predicted_value =
        max 0 (((smoothedList
          (([MonthRow.mk 0 100, MonthRow.mk 30 100] : List MonthRow).map
            fun r => r.value)).getLast?).getD 0) := by
  have h0 : exp_smooth_trend (smoothedList
      (([MonthRow.mk 0 100, MonthRow.mk 30 100] : List MonthRow).map fun r => r.value)) = 0 := by
    norm_num [smoothedList, smoothFrom, exp_smooth_trend]
  exact ⟨by norm_num, h0,
    exponential_smoothing_flat_spec [MonthRow.mk 0 100, MonthRow.mk 30 100] 2
      (by norm_num) h0⟩

/-- C7 at the failing input `[0, 5]`: the simple-trend fitter reaches the
growth-rate expression `(last / first) ** (1 / N) - 1` with a zero first
value — the division by zero is not guarded.  Under numpy float semantics
`5 / 0` is `inf` and the forecast degenerates; under this model's `x / 0 = 0`
convention the rate collapses to `-1` and every forecast value is 0. -/
theorem simple_trend_zero_first_value :
    firstValue [MonthRow.mk 0 0, MonthRow.mk 30 5] = 0 ∧
    2 ≤ ([MonthRow.mk 0 0, MonthRow.mk 30 5] : List MonthRow).length ∧
    simple_trend_growth_rate [MonthRow.mk 0 0, MonthRow.mk 30 5] =
      ((5 : ℝ) / 0) ^ ((1 : ℝ) / 2) - 1 ∧
    simple_trend_forecast [MonthRow.mk 0 0, MonthRow.mk 30 5] 1 =
      .ok [ForecastPoint.mk 60 0 "simple_trend"] := by
  have hgr : simple_trend_growth_rate [MonthRow.mk 0 0, MonthRow.mk 30 5] =
      ((5 : ℝ) / 0) ^ ((1 : ℝ) / 2) - 1 := by
    unfold simple_trend_growth_rate
    rw [if_pos (by norm_num)]
    norm_num [lastValue, firstValue]
  have hval : (5 : ℝ) * (1 + (((5 : ℝ) / 0) ^ ((1 : ℝ) / 2) - 1)) ^ (0 + 1) = 0 := by
    rw [div_zero, Real.zero_rpow (by norm_num : (1 : ℝ) / 2 ≠ 0)]
    ring
  refine ⟨by simp [firstValue], by norm_num, hgr, ?_⟩
  simp [simple_trend_forecast, List.range_succ, lastPeriod, lastValue, hgr, hval]

/-- Helper: the monthly aggregate of a non-empty row set is non-empty. -/
theorem aggregate_monthly_data_ne_nil (df : List DataRow) (h : df ≠ []) :
    aggregate_monthly_data df ≠ [] := by
  intro hcon
  apply h
  unfold aggregate_monthly_data at hcon
  rw [List.map_eq_nil] at hcon
  have h2 := congrArg List.length hcon
  rw [List.length_mergeSort] at h2
  have h3 : (df.map fun r => monthOf r.period).dedup = [] :=
    List.length_eq_zero.mp (by simpa using h2)
  have h4 : df.map (fun r => monthOf r.period) = [] := (List.dedup_eq_nil _).mp h3
  simpa using h4

/-- Helper: the accuracy estimator never raises. -/
theorem calculate_model_accuracy_ok (df : List DataRow) (ft : ForecastType) :
    ∃ a, calculate_model_accuracy df ft = .ok a := by
  have hbind : ∀ (e : Except String (List ForecastPoint))
      (x : List ForecastPoint) (f : List ForecastPoint → Except String ℝ),
      e = .ok x → e >>= f = f x := by
    intro e x f he
    rw [he]
    rfl
  have hif : ∀ (c : Prop) (inst : Decidable c) (x y : ℝ),
      ∃ a, (if c then (pure x : Except String ℝ) else pure y) = .ok a := by
    intro c inst x y
    by_cases h : c
    · exact ⟨x, by rw [if_pos h]; rfl⟩
    · exact ⟨y, by rw [if_neg h]; rfl⟩
  rcases lt_or_le df.length 4 with h | h
  · refine ⟨0.7, ?_⟩
    unfold calculate_model_accuracy
    rw [if_pos h]
    rfl
  · have hKle : 3 * df.length / 4 ≤ df.length := by omega
    have hne : ((df.take (3 * df.length / 4)).map fun r => MonthRow.mk r.period r.value) ≠ [] := by
      intro hcon
      have hl := congrArg List.length hcon
      simp [List.length_take, Nat.min_eq_left hKle] at hl
      omega
    obtain ⟨preds, hok, _, _⟩ :=
      linear_regression_spec _ ((df.drop (3 * df.length / 4)).length) hne
    simp only [calculate_model_accuracy]
    rw [if_neg (by omega), hbind _ preds _ hok]
    exact hif _ _ _ _

/-- Helper: prediction generation never raises on a non-empty row set. -/
theorem generate_predictions_ok (df : List DataRow) (ft : ForecastType)
    (sc : ScenarioType) (m : ℕ) (rand : ℕ → ℝ) (h : df ≠ []) :
    ∃ ps, generate_predictions df ft sc m rand = .ok ps := by
  have hmon : aggregate_monthly_data df ≠ [] := aggregate_monthly_data_ne_nil df h
  have hbind : ∀ (e : Except String (List ForecastPoint))
      (x : List ForecastPoint) (f : List ForecastPoint → Except String (List AdjustedPoint)),
      e = .ok x → e >>= f = f x := by
    intro e x f he
    rw [he]
    rfl
  cases ft with
  | revenue =>
    obtain ⟨l, hok, _, _⟩ := linear_regression_spec (aggregate_monthly_data df) m hmon
    refine ⟨apply_scenario_adjustments l sc .revenue rand, ?_⟩
    simp only [generate_predictions, model_type]
    rw [if_pos trivial, hbind _ l _ hok]
    rfl
  | expenses =>
    obtain ⟨l, hok, _, _⟩ := polynomial_regression_spec (aggregate_monthly_data df) m hmon
    refine ⟨apply_scenario_adjustments l sc .expenses rand, ?_⟩
    simp only [generate_predictions, model_type]
    rw [if_pos trivial, hbind _ l _ hok]
    rfl
  | cash_flow =>
    obtain ⟨l, hok, _, _⟩ := exponential_smoothing_spec (aggregate_monthly_data df) m hmon
    have harima : arima_forecast (aggregate_monthly_data df) m = .ok l := hok
    refine ⟨apply_scenario_adjustments l sc .cash_flow rand, ?_⟩
    simp only [generate_predictions, model_type]
    rw [if_pos trivial, hbind _ l _ harima]
    rfl
  | growth =>
    obtain ⟨l, hok, _, _⟩ := exponential_smoothing_spec (aggregate_monthly_data df) m hmon
    refine ⟨apply_scenario_adjustments l sc .growth rand, ?_⟩
    simp only [generate_predictions, model_type]
    rw [if_pos trivial, hbind _ l _ hok]
    rfl
  | churn =>
    obtain ⟨l, hok, _, _⟩ := linear_regression_spec (aggregate_monthly_data df) m hmon
    refine ⟨apply_scenario_adjustments l sc .churn rand, ?_⟩
    simp only [generate_predictions, model_type]
    rw [if_pos trivial, hbind _ l _ hok]
    rfl

/-- Helper: with at least one relevant metric, the whole forecast attempt
succeeds (preparation, fitting, adjustment and accuracy all return). -/
theorem generate_forecast_attempt_ok (s : EngineState) (ft : ForecastType)
    (sc : ScenarioType) (m : ℕ) (rand : ℕ → ℝ) (now : ℕ) (fid : String)
    (h : (s.historical_data.filter fun mm => is_relevant_metric mm ft) ≠ []) :
    ∃ f, generate_forecast_attempt s ft sc m rand now fid = .ok f := by
  have hprep : prepare_historical_data s.historical_data ft = .ok
      (((s.historical_data.filter fun mm => is_relevant_metric mm ft).map
        fun mm => DataRow.mk mm.period mm.value mm.category mm.name).mergeSort
        fun a b => a.period ≤ b.period) := by
    simp only [prepare_historical_data]
    rw [if_neg (by simpa [List.isEmpty_iff] using h)]
  have hdfne : (((s.historical_data.filter fun mm => is_relevant_metric mm ft).map
      fun mm => DataRow.mk mm.period mm.value mm.category mm.name).mergeSort
      fun a b => a.period ≤ b.period) ≠ [] := by
    intro hcon
    have hl := congrArg List.length hcon
    rw [List.length_mergeSort, List.length_map] at hl
    exact h (List.length_eq_zero.mp (by simpa using hl))
  obtain ⟨ps, hps⟩ := generate_predictions_ok _ ft sc m rand hdfne
  obtain ⟨a, ha⟩ := calculate_model_accuracy_ok
    (((s.historical_data.filter fun mm => is_relevant_metric mm ft).map
      fun mm => DataRow.mk mm.period mm.value mm.category mm.name).mergeSort
      fun a b => a.period ≤ b.period) ft
  have hbind : ∀ {α β : Type} {e : Except String α} {x : α} (he : e = .ok x)
      (f : α → Except String β), e >>= f = f x := by
    intro α β e x he f
    rw [he]
    rfl
  refine ⟨Forecast.mk fid ft sc now (now + m * 30) ps
    (calculate_confidence_interval ps ft) a (get_scenario_assumptions sc) now, ?_⟩
  unfold generate_forecast_attempt
  simp only [hbind hprep, hbind hps, hbind ha]
  rfl

/-- Helper: with no relevant metric, `generate_forecast` returns the
no-data error and the untouched state. -/
theorem generate_forecast_no_data (s : EngineState) (ft : ForecastType)
    (sc : ScenarioType) (m : ℕ) (rand : ℕ → ℝ) (now : ℕ) (fid : String)
    (h : (s.historical_data.filter fun mm => is_relevant_metric mm ft) = []) :
    generate_forecast s ft sc m rand now fid =
      (.error ("No historical data available for " ++ ft.val), s) := by
  have hprep : prepare_historical_data s.historical_data ft =
      .error ("No historical data available for " ++ ft.val) := by
    simp [prepare_historical_data, h]
  have hatt : generate_forecast_attempt s ft sc m rand now fid =
      .error ("No historical data available for " ++ ft.val) := by
    unfold generate_forecast_attempt
    rw [hprep]
    rfl
  unfold generate_forecast
  rw [hatt]

/-- C8: the no-data error is raised exactly when the requested forecast
category has zero relevant historical metrics, where relevance is the
case-insensitive keyword substring match on the metric's name or category:
`_prepare_historical_data` errors iff the relevance filter is empty,
`generate_forecast` surfaces exactly that error under the same condition,
and for `churn` — whose keyword set is empty — preparation fails for every
input. -/
theorem prepare_historical_data_spec (hist : List FinancialMetric) (ft : ForecastType) :
    ((∃ e, prepare_historical_data hist ft = .error e) ↔
      (hist.filter fun m => is_relevant_metric m ft) = []) ∧
    (∀ (fcs : List (Forecast AdjustedPoint)) (pls : List FinancialPlan)
      (sc : ScenarioType) (m : ℕ) (rand : ℕ → ℝ) (now : ℕ) (fid : String),
      (generate_forecast ⟨hist, fcs, pls⟩ ft sc m rand now fid).1 =
          .error ("No historical data available for " ++ ft.val) ↔
        (hist.filter fun mm => is_relevant_metric mm ft) = []) ∧
    prepare_historical_data hist .churn =
      .error "No historical data available for churn" := by
  refine ⟨?_, ?_, ?_⟩
  · simp only [prepare_historical_data]
    by_cases h : (hist.filter fun m => is_relevant_metric m ft).isEmpty
    · rw [if_pos h]
      simp only [List.isEmpty_iff] at h
      simp [h]
    · rw [if_neg h]
      simp only [List.isEmpty_iff] at h
      simp [h]
  · intro fcs pls sc m rand now fid
    constructor
    · intro herr
      by_contra hne
      obtain ⟨f, hatt⟩ := generate_forecast_attempt_ok ⟨hist, fcs, pls⟩ ft sc m rand now fid hne
      rw [show generate_forecast ⟨hist, fcs, pls⟩ ft sc m rand now fid =
          (.ok f, { EngineState.mk hist fcs pls with forecasts := fcs ++ [f] }) by
        unfold generate_forecast
        rw [hatt]] at herr
      exact absurd herr (by simp)
    · intro h
      rw [generate_forecast_no_data ⟨hist, fcs, pls⟩ ft sc m rand now fid h]
  · have hfilt : (hist.filter fun m => is_relevant_metric m .churn) = [] := by
      simp [is_relevant_metric, relevance_map]
    simp only [prepare_historical_data, hfilt]
    rfl

/-- Counterexample to C9: serializing a forecast whose single prediction has
predicted value 5 leaves that monetary figure as a JSON number, not a
decimal string. -/
theorem forecast_to_dict_float_prediction :
    (forecastToDict adjustedPointToJson (wForecast [5])).objLookup "predictions" =
      some (.arr [adjustedPointToJson (wAdjusted 5)]) ∧
    (adjustedPointToJson (wAdjusted 5)).objLookup "predicted_value" =
      some (.num 5) ∧
    (Json.num 5).isStringLike = false := by
  refine ⟨?_, ?_, rfl⟩ <;> rfl

/-- C9 (amended): `Forecast.to_dict` leaves each prediction's monetary
values (the `predicted_value` of a base forecast and the per-month figures
of a combined forecast) as JSON numbers; `FinancialPlan.to_dict` encodes
budget allocations and KPI targets as decimal strings, but reaches that
serialization only for a plan whose scenarios map is empty — for any plan
with a present scenario, `asdict` has already converted the nested
forecasts to plain dicts and the scenarios re-serialization raises
`AttributeError`. -/
theorem serialized_money_encoding (plan : FinancialPlan)
    (f : Forecast AdjustedPoint) (p : AdjustedPoint) (c : CombinedPoint) :
    (plan.scenarios.optimistic = none → plan.scenarios.realistic = none →
      plan.scenarios.pessimistic = none →
      ∃ j, financialPlanToDict plan = .ok j ∧
        j.objLookup "budget_allocations" =
          some (.obj (plan.budget_allocations.map fun kv => (kv.1, .decimalStr kv.2))) ∧
        j.objLookup "kpi_targets" =
          some (.obj (plan.kpi_targets.map fun kv => (kv.1, .decimalStr kv.2)))) ∧
    (plan.scenarios.optimistic ≠ none ∨ plan.scenarios.realistic ≠ none ∨
        plan.scenarios.pessimistic ≠ none →
      financialPlanToDict plan =
        .error "AttributeError: 'dict' object has no attribute 'to_dict'") ∧
    (∀ v : ℝ, (Json.decimalStr v).isStringLike = true) ∧
    (forecastToDict adjustedPointToJson f).objLookup "predictions" =
      some (.arr (f.predictions.map adjustedPointToJson)) ∧
    (adjustedPointToJson p).objLookup "predicted_value" = some (.num p.predicted_value) ∧
    (combinedPointToJson c).objLookup "revenue" = some (.num c.revenue) ∧
    (combinedPointToJson c).objLookup "net_income" = some (.num c.net_income) ∧
    (∀ v : ℝ, (Json.num v).isStringLike = false) := by
  refine ⟨?_, ?_, fun _ => rfl, rfl, rfl, rfl, rfl, fun _ => rfl⟩
  · intro ho hr hp
    have hsc : scenarios_to_dict plan.scenarios = .ok (.obj []) := by
      unfold scenarios_to_dict
      rw [ho, hr, hp]
    have hplan : financialPlanToDict plan = .ok (Json.obj
        [("plan_id", .str plan.plan_id),
         ("name", .str plan.name),
         ("planning_horizon", .str plan.planning_horizon.val),
         ("scenarios", .obj []),
         ("budget_allocations", .obj
           (plan.budget_allocations.map fun kv => (kv.1, .decimalStr kv.2))),
         ("kpi_targets", .obj
           (plan.kpi_targets.map fun kv => (kv.1, .decimalStr kv.2))),
         ("risk_factors", .arr (plan.risk_factors.map riskFactorToJson)),
         ("created_at", .str (toString plan.created_at)),
         ("updated_at", .str (toString plan.updated_at))]) := by
      unfold financialPlanToDict
      rw [hsc]
      rfl
    exact ⟨_, hplan, rfl, rfl⟩
  · intro h
    have hsc : scenarios_to_dict plan.scenarios =
        .error "AttributeError: 'dict' object has no attribute 'to_dict'" := by
      rcases hO : plan.scenarios.optimistic with _ | x <;>
        rcases hR : plan.scenarios.realistic with _ | y <;>
        rcases hP : plan.scenarios.pessimistic with _ | z <;>
        simp_all [scenarios_to_dict]
    unfold financialPlanToDict
    rw [hsc]
    rfl

/-- Concrete plan used by the C9 witness. -/
def wPlan (scs : ScenarioMap) : FinancialPlan :=
  ⟨"p", "plan", .yearly, scs, [("marketing", 150)], [("annual_revenue", 12000)], [], 0, 0⟩

/-- Witness for the amended C9 at concrete plans: a plan carrying a
realistic scenario fails to serialize with the `AttributeError`, while a
plan with no scenarios serializes its budget allocations as decimal
strings. -/
theorem serialized_money_encoding_witness :
    financialPlanToDict (wPlan ⟨none, some wCombined1000, none⟩) =
      .error "AttributeError: 'dict' object has no attribute 'to_dict'" ∧
    ∃ j, financialPlanToDict (wPlan ⟨none, none, none⟩) = .ok j ∧
      j.objLookup "budget_allocations" =
        some (.obj [("marketing", .decimalStr 150)]) := by
  constructor
  · exact (serialized_money_encoding (wPlan ⟨none, some wCombined1000, none⟩)
      (wForecast []) (wAdjusted 0) ⟨0, 0, 0, 0, 0⟩).2.1
      (Or.inr (Or.inl (by simp [wPlan])))
  · obtain ⟨j, hj, hb, _⟩ := (serialized_money_encoding (wPlan ⟨none, none, none⟩)
      (wForecast []) (wAdjusted 0) ⟨0, 0, 0, 0, 0⟩).1 rfl rfl rfl
    refine ⟨j, hj, ?_⟩
    rw [hb]
    rfl

/-- C10: when no historical metric is relevant to the requested category,
`generate_forecast` returns the no-data error and the engine state exactly
as it was (no forecast appended, historical data and plan lists untouched);
a forecast is appended only when the whole computation succeeds. -/
theorem generate_forecast_no_data_state (s : EngineState) (ft : ForecastType)
    (sc : ScenarioType) (m : ℕ) (rand : ℕ → ℝ) (now : ℕ) (fid : String) :
    ((s.historical_data.filter fun mm => is_relevant_metric mm ft) = [] →
      generate_forecast s ft sc m rand now fid =
        (.error ("No historical data available for " ++ ft.val), s)) ∧
    (∀ f, (generate_forecast s ft sc m rand now fid).1 = .ok f →
      (generate_forecast s ft sc m rand now fid).2 =
        { s with forecasts := s.forecasts ++ [f] }) := by
  constructor
  · exact generate_forecast_no_data s ft sc m rand now fid
  · intro f hf
    unfold generate_forecast at hf ⊢
    cases hatt : generate_forecast_attempt s ft sc m rand now fid with
    | ok g =>
      rw [hatt] at hf
      have hgf : g = f := by
        injection (show Except.ok g = Except.ok f from hf)
      subst hgf
      rfl
    | error e =>
      rw [hatt] at hf
      exact absurd (show Except.error e = Except.ok f from hf) (by simp)

/-- Witness for C10 at a concrete state: one metric irrelevant to the
revenue category makes `generate_forecast` fail and hand the state back
unchanged. -/
theorem generate_forecast_no_data_state_witness :
    generate_forecast
        ⟨[FinancialMetric.mk "id" "headcount" 5 0 "hr"], [], []⟩
        .revenue .realistic 12 (fun _ => 0) 0 "fid" =
      (.error "No historical data available for revenue",
        ⟨[FinancialMetric.mk "id" "headcount" 5 0 "hr"], [], []⟩) :=
  (generate_forecast_no_data_state
    ⟨[FinancialMetric.mk "id" "headcount" 5 0 "hr"], [], []⟩
    .revenue .realistic 12 (fun _ => 0) 0 "fid").1 (by rfl)
